import Mathlib

/-!
Verification of the remote glyph-data RPC layer of `tools/remote_demo.cpp`.

The demo splits rendering across two roles connected by two unidirectional
pipes: a `renderer` role that owns the fonts and runs a dispatch loop, and a
`gpu` role whose `RemoteScalerContextFIFO` translates glyph-data requests
into fixed-size `Op` frames written over the pipe, optionally followed by
variable-length trailing bytes (bitmap rows, encoded paths).

The embedding models:
* the `Op` wire frame and its per-opcode payload union;
* the glyph data provider (`SkRemoteGlyphCacheRenderer.generateScalerContext`
  and the `SkScalerContext` operations it yields), which is external to the
  demo file and therefore kept abstract as structure fields;
* the renderer's dispatch of one frame (`serverHandle`) and its read loop
  (`opLoop` / `rendererOpPhase`);
* the client operations, both their functional content over a channel that
  delivers each frame-plus-trailing message intact (`rpcFontMetrics`,
  `imageExchange`, `pathExchange`) and the sequence of pipe system calls
  they issue (`generateFontMetricsSyscalls` etc.);
* the picture-transfer write loop and the process driver's exit code
  (`picWriteLoop`, `rendererRc`, `mainExitCode`).

Machine scalars (e.g. the float fields of `SkPaint::FontMetrics`) are never
computed with by the RPC layer, only copied byte-for-byte, so they are
modelled as opaque integer bit patterns compared for equality.  Buffer
pointers are modelled as byte offsets.  `sizeof(Op)` is platform dependent
and is kept as a parameter `szOp` throughout.
-/

/-- `static const size_t kPageSize = 4096`. -/
def kPageSize : Nat := 4096

/-- Size of the renderer's `glyphBuffer`: `1024 * kPageSize` bytes. -/
def kBufferSize : Nat := 1024 * kPageSize

/-- Size of the client's member array `uint8_t fBuffer[1024 * kPageSize]`. -/
def fBufferSize : Nat := 1024 * kPageSize

/-- The scaler-context record wrapped by `SkScalerContextRecDescriptor`:
a fixed-size encoding of the rendering parameters.  The RPC layer treats it
as an opaque byte string used only as a lookup key, so it is modelled as the
list of its bytes. -/
structure SkScalerContextRec where
  bytes : List Nat
deriving DecidableEq, Repr

/-- `SkPaint::FontMetrics` as far as the demo observes it: the RPC layer only
copies the record wholesale (`memcpy`), so each scalar field is an opaque bit
pattern; the named fields are the ones the spec's scenarios mention, and the
remaining fields of the real struct behave identically under the wholesale
copy. -/
structure SkFontMetrics where
  ascent : Int
  descent : Int
  leading : Int
deriving DecidableEq, Repr

/-- `SkGlyph` as far as the demo observes it: glyph identity, the image
geometry consumed by the image exchange (`rowBytes()` and `fHeight`), the
advance, and the image pointer `fImage` (modelled as a byte offset).
`rowBytes()` is an accessor computed by `SkGlyph` from its metrics; the demo
only reads it, so it is modelled as a stored field. -/
structure SkGlyph where
  id : Nat
  fWidth : Nat
  fHeight : Nat
  fRowBytes : Nat
  fAdvanceX : Int
  fAdvanceY : Int
  fImage : Nat
deriving DecidableEq, Repr

/-- `glyph.rowBytes()`. -/
def SkGlyph.rowBytes (g : SkGlyph) : Nat := g.fRowBytes

/-- The all-zero glyph, used to model reading the `Op` union through the
`SkGlyph` member when the active variant is a different one (the bytes are
then unspecified; the model fixes them to zero). -/
def glyphZero : SkGlyph :=
  { id := 0, fWidth := 0, fHeight := 0, fRowBytes := 0,
    fAdvanceX := 0, fAdvanceY := 0, fImage := 0 }

/-- The all-zero font-metrics record, used like `glyphZero` for reads of the
union through the `fontMetrics` member when another variant is active. -/
def fontMetricsZero : SkFontMetrics :=
  { ascent := 0, descent := 0, leading := 0 }

/-- The payload union of the `Op` frame:

    union \x7b
        SkPaint::FontMetrics fontMetrics;  // op 0
        SkGlyph glyph;                     // op 1 and 2
        struct \x7b SkGlyphID glyphId; size_t pathSize; \x7d;  // op 3
    \x7d;

Both ends interpret the union through the same member for a given opcode, so
it is modelled as a sum; `uninit` is the state right after placement-new of
the frame, before any member is written. -/
inductive OpPayload where
  | uninit
  | fontMetrics (m : SkFontMetrics)
  | glyph (g : SkGlyph)
  | path (glyphId : Nat) (pathSize : Nat)
deriving DecidableEq, Repr

/-- Read the union through the `fontMetrics` member. -/
def OpPayload.asFontMetrics : OpPayload → SkFontMetrics
  | .fontMetrics m => m
  | _ => fontMetricsZero

/-- Read the union through the `glyph` member. -/
def OpPayload.asGlyph : OpPayload → SkGlyph
  | .glyph g => g
  | _ => glyphZero

/-- Read the union through the anonymous struct's `glyphId` member. -/
def OpPayload.glyphIdField : OpPayload → Nat
  | .path gid _ => gid
  | _ => 0

/-- Read the union through the anonymous struct's `pathSize` member. -/
def OpPayload.pathSizeField : OpPayload → Nat
  | .path _ s => s
  | _ => 0

/-- The fixed-size wire frame `class Op`: opcode, typeface id, the payload
union and the scaler descriptor. -/
structure Op where
  op : Nat
  typeface_id : Nat
  payload : OpPayload
  descriptor : SkScalerContextRec
deriving DecidableEq, Repr

/-- `RemoteScalerContextFIFO::createOp`: placement-new of an `Op` in
`fBuffer` with the given opcode, typeface id and descriptor; the payload
union is left uninitialized. -/
def createOp (opID : Nat) (typefaceId : Nat) (rec : SkScalerContextRec) : Op :=
  { op := opID, typeface_id := typefaceId, payload := OpPayload.uninit,
    descriptor := rec }

/-- The scaler context the provider resolves for one `(descriptor, fontId)`
pair.  `SkScalerContext` lives outside the demo file; the four operations the
dispatch loop calls are kept abstract:
* `getFontMetrics` fills a `SkPaint::FontMetrics` record;
* `getMetrics` fills the glyph's metrics in place from its id;
* `getImage` renders the glyph's image into the buffer its `fImage` points
  at — modelled as the byte at each offset of the rendered image;
* `getPath` produces the glyph outline, serialized by `SkPath::writeToMemory`
  — modelled as the serialized byte list. -/
structure ScalerContext where
  getFontMetrics : SkFontMetrics
  getMetrics : SkGlyph → SkGlyph
  getImage : SkGlyph → Nat → Nat
  getPath : Nat → List Nat

/-- The glyph data provider: `SkRemoteGlyphCacheRenderer`, of which the
dispatch loop only calls `generateScalerContext(descriptor, typefaceId)`. -/
structure Renderer where
  generateScalerContext : SkScalerContextRec → Nat → ScalerContext

/-- One iteration body of the renderer's dispatch loop, lines 243-270: given
the request frame, resolve the scaler context, switch on `op->op`, fill the
response in place into the same frame and produce the trailing bytes written
after it.  `szOp` is `sizeof(Op)`; the image pointer stored into the
response's glyph is `&glyphBuffer[sizeof(Op)]`, modelled as the offset
`szOp`.  In the `default` case the source executes `SkASSERT("Bad op")`; the
assertion's condition is the address of a string literal, which is non-null,
so it never fires (and `SkASSERT` is compiled out entirely in release
builds), and control continues to the response write with the frame
unmodified. -/
def serverHandle (szOp : Nat) (rc : Renderer) (req : Op) : Op × List Nat :=
  let sc := rc.generateScalerContext req.descriptor req.typeface_id
  match req.op with
  | 0 => ({ req with payload := OpPayload.fontMetrics sc.getFontMetrics }, [])
  | 1 =>
      ({ req with payload := OpPayload.glyph (sc.getMetrics req.payload.asGlyph) }, [])
  | 2 =>
      let g : SkGlyph := { req.payload.asGlyph with fImage := szOp }
      ({ req with payload := OpPayload.glyph g },
        (List.range (g.rowBytes * g.fHeight)).map (sc.getImage g))
  | 3 =>
      let bytes := sc.getPath req.payload.glyphIdField
      ({ req with payload := OpPayload.path req.payload.glyphIdField bytes.length },
        bytes)
  | _ => (req, [])

/-- Pipe-level events a role performs: `read(fd, buf, count)`,
`write(fd, buf, count)`, and closing its retained read or write end. -/
inductive Evt where
  | readCall (count : Nat)
  | writeCall (count : Nat)
  | closeRead
  | closeWrite
deriving DecidableEq, Repr

/-- What one `read(readFd, glyphBuffer.get(), sizeof(*op))` of the dispatch
loop yields: end-of-stream (`size == 0`), an error (`size < 0`), or a full
request frame. -/
inductive ReadOutcome where
  | eof
  | err
  | frame (req : Op)

/-- The renderer's dispatch loop, lines 238-272: read one fixed-size frame;
`size <= 0` breaks out of the loop (end-of-stream and read error take the
same branch); otherwise dispatch the frame and write back
`sizeof(Op) + trailing` bytes, then repeat.  The result is the sequence of
pipe events the loop performs on the given stream of read outcomes. -/
def opLoop (szOp : Nat) (rc : Renderer) : List ReadOutcome → List Evt
  | [] => []
  | ReadOutcome.eof :: _ => [Evt.readCall szOp]
  | ReadOutcome.err :: _ => [Evt.readCall szOp]
  | ReadOutcome.frame req :: rest =>
      Evt.readCall szOp
        :: Evt.writeCall (szOp + (serverHandle szOp rc req).2.length)
        :: opLoop szOp rc rest

/-- The events one dispatched frame contributes to the loop's trace. -/
def dispatchEvts (szOp : Nat) (rc : Renderer) (req : Op) : List Evt :=
  [Evt.readCall szOp, Evt.writeCall (szOp + (serverHandle szOp rc req).2.length)]

/-- The renderer's glyph-serving phase, lines 238-279: run the dispatch loop,
then `close(readFd); close(writeFd);` and return 0. -/
def rendererOpPhase (szOp : Nat) (rc : Renderer) (ins : List ReadOutcome) :
    List Evt × Nat :=
  (opLoop szOp rc ins ++ [Evt.closeRead, Evt.closeWrite], 0)

/-- The byte counts a pipe delivers for each successive `read`/`write` call
(indexed by call number).  The client operations never inspect the return
values of their calls, so this parameter records what the channel would have
reported. -/
structure PipeBehavior where
  readBytes : Nat → Nat
  writeBytes : Nat → Nat

/-- System calls of `RemoteScalerContextFIFO::generateFontMetrics`, lines
64-72: one `write(fWriteFd, fBuffer, sizeof(*op))` and one
`read(fReadFd, fBuffer, sizeof(fBuffer))`; both return values are discarded,
so the trace does not depend on `pb`. -/
def generateFontMetricsSyscalls (szOp : Nat) (pb : PipeBehavior) : List Evt :=
  [Evt.writeCall szOp, Evt.readCall fBufferSize]

/-- System calls of `RemoteScalerContextFIFO::generateMetrics`, lines 74-83:
same single unchecked write/read pair. -/
def generateMetricsSyscalls (szOp : Nat) (pb : PipeBehavior) : List Evt :=
  [Evt.writeCall szOp, Evt.readCall fBufferSize]

/-- System calls of `RemoteScalerContextFIFO::generateImage`, lines 85-94:
same single unchecked write/read pair (the trailing copy is a `memcpy` from
`fBuffer`, not a pipe read). -/
def generateImageSyscalls (szOp : Nat) (pb : PipeBehavior) : List Evt :=
  [Evt.writeCall szOp, Evt.readCall fBufferSize]

/-- System calls of `RemoteScalerContextFIFO::generatePath`, lines 96-105:
same single unchecked write/read pair (`readFromMemory` decodes from
`fBuffer`, not from the pipe). -/
def generatePathSyscalls (szOp : Nat) (pb : PipeBehavior) : List Evt :=
  [Evt.writeCall szOp, Evt.readCall fBufferSize]

/-- End-to-end font-metrics exchange over a channel that delivers each
message intact: the client builds the opcode-0 frame (`createOp(0, tf, rec)`),
the renderer dispatches it, and the client copies `op->fontMetrics` out of
the response frame into the caller's record. -/
def rpcFontMetrics (szOp : Nat) (rc : Renderer) (typefaceId : Nat)
    (rec : SkScalerContextRec) : SkFontMetrics :=
  (serverHandle szOp rc (createOp 0 typefaceId rec)).1.payload.asFontMetrics

/-- The opcode-1 request frame: `createOp(1, tf, rec)` followed by
`memcpy(&op->glyph, glyph, sizeof(*glyph))`. -/
def metricsRequest (typefaceId : Nat) (rec : SkScalerContextRec)
    (g : SkGlyph) : Op :=
  { createOp 1 typefaceId rec with payload := OpPayload.glyph g }

/-- End-to-end glyph-metrics exchange: the client copies `op->glyph` out of
the response frame back into the caller's glyph. -/
def rpcMetrics (szOp : Nat) (rc : Renderer) (typefaceId : Nat)
    (rec : SkScalerContextRec) (g : SkGlyph) : SkGlyph :=
  (serverHandle szOp rc (metricsRequest typefaceId rec g)).1.payload.asGlyph

/-- The opcode-2 request frame: `createOp(2, tf, rec)` followed by
`memcpy(&op->glyph, &glyph, sizeof(glyph))`. -/
def imageRequest (typefaceId : Nat) (rec : SkScalerContextRec)
    (g : SkGlyph) : Op :=
  { createOp 2 typefaceId rec with payload := OpPayload.glyph g }

/-- One full opcode-2 exchange: the response frame and the trailing bytes
the renderer appends after it. -/
def imageExchange (szOp : Nat) (rc : Renderer) (typefaceId : Nat)
    (rec : SkScalerContextRec) (g : SkGlyph) : Op × List Nat :=
  serverHandle szOp rc (imageRequest typefaceId rec g)

/-- Number of bytes `generateImage` copies into the caller's image buffer:
`memcpy(glyph.fImage, fBuffer + sizeof(Op), glyph.rowBytes() * glyph.fHeight)`
— computed from the caller's glyph. -/
def imageCopyCount (g : SkGlyph) : Nat := g.rowBytes * g.fHeight

/-- The opcode-3 request frame: `createOp(3, tf, rec)` followed by
`op->glyphId = glyph`.  Only the union's `glyphId` member is written; its
`pathSize` member stays uninitialized (modelled as 0) and is overwritten by
the server before the response. -/
def pathRequest (typefaceId : Nat) (rec : SkScalerContextRec)
    (glyphId : Nat) : Op :=
  { createOp 3 typefaceId rec with payload := OpPayload.path glyphId 0 }

/-- One full opcode-3 exchange: the response frame and the trailing encoded
path bytes. -/
def pathExchange (szOp : Nat) (rc : Renderer) (typefaceId : Nat)
    (rec : SkScalerContextRec) (glyphId : Nat) : Op × List Nat :=
  serverHandle szOp rc (pathRequest typefaceId rec glyphId)

/-- Number of trailing bytes `generatePath` consumes:
`path->readFromMemory(fBuffer + sizeof(Op), op->pathSize)` — the `pathSize`
field of the response frame now in `fBuffer`. -/
def pathConsumedCount (resp : Op) : Nat := resp.payload.pathSizeField

/-- The renderer's picture-transfer write loop, lines 219-231: keep calling
`write` with the remaining byte count until `writeSoFar == picSize`.  Each
element of the outcome list is what one `write` call returns: `some n` for
`n` bytes accepted (`n = 0` prints "Exit" and returns 1), `none` for an
error (`perror` and return 1).  The result is `some true` when the loop
completes, `some false` when the function returns 1, and `none` when the
outcome list is exhausted before either (the real call would block, so model
inputs always supply enough outcomes). -/
def picWriteLoop (picSize : Nat) : Nat → List (Option Nat) → Option Bool
  | soFar, outs =>
    if soFar < picSize then
      match outs with
      | [] => none
      | Option.none :: _ => some false
      | some 0 :: _ => some false
      | some (n + 1) :: rest => picWriteLoop picSize (soFar + (n + 1)) rest
    else
      some true

/-- `renderer`'s return value, lines 186-280, for the pipe behaviors given:
if the picture-transfer write loop fails (`write` returns 0 or errors) the
function returns 1 immediately — without closing its pipe ends; otherwise it
runs the dispatch loop, closes both ends and returns 0 (also when the loop
stopped because a read errored). -/
def rendererRc (szOp : Nat) (rc : Renderer) (picSize : Nat)
    (picOuts : List (Option Nat)) (ins : List ReadOutcome) : Option Nat :=
  match picWriteLoop picSize 0 picOuts with
  | none => none
  | some false => some 1
  | some true => some (rendererOpPhase szOp rc ins).2

/-- The driving process's exit status on the parent path of `main`, lines
318-334: `start_render` calls `renderer(...)` and discards its return value,
`waitpid` discards the child's status, and `main` falls through to
`return 0`.  Whatever `renderer` reported, `main` exits 0. -/
def mainExitCode (szOp : Nat) (rc : Renderer) (picSize : Nat)
    (picOuts : List (Option Nat)) (ins : List ReadOutcome) : Option Nat :=
  (rendererRc szOp rc picSize picOuts ins).map fun _ => 0

/-- An example descriptor (opaque parameter bytes). -/
def recEx : SkScalerContextRec := { bytes := [7, 3] }

/-- An example provider whose font metrics are the spec's scenario values
ascent=10, descent=-2, leading=1, whose glyph metrics report an 8-byte-row,
12-row image, and whose path encoder serializes a glyph id to three bytes. -/
def scEx : ScalerContext :=
  { getFontMetrics := { ascent := 10, descent := -2, leading := 1 },
    getMetrics := fun g =>
      { g with fWidth := 6, fHeight := 12, fRowBytes := 8,
               fAdvanceX := 7, fAdvanceY := 0 },
    getImage := fun g i => (g.id + i) % 251,
    getPath := fun glyphId => [glyphId % 256, 1, 2] }

/-- An example renderer resolving every `(descriptor, fontId)` to `scEx`. -/
def rcEx : Renderer := { generateScalerContext := fun _ _ => scEx }

/-- An example `sizeof(Op)` value for concrete evaluations (the exact value
is platform dependent; no theorem depends on it). -/
def szOpEx : Nat := 136

/-- A pipe behavior delivering a single byte per call — a legal short
read/write on a POSIX pipe. -/
def pbShort : PipeBehavior := { readBytes := fun _ => 1, writeBytes := fun _ => 1 }

/-- A request frame carrying an opcode (4) outside \x7b0,1,2,3\x7d. -/
def reqBadOp : Op := createOp 4 5 recEx

/-- An opcode-2 request whose glyph geometry implies
`rowBytes * height = kBufferSize` trailing bytes, so frame plus trailing
exceeds the renderer's buffer capacity. -/
def reqHuge : Op :=
  imageRequest 5 recEx
    { id := 65, fWidth := 4096, fHeight := 1024, fRowBytes := 4096,
      fAdvanceX := 0, fAdvanceY := 0, fImage := 0 }

/-- Whether a pipe event is a `read` call. -/
def Evt.isRead : Evt → Bool
  | .readCall _ => true
  | _ => false

/-- Whether a pipe event is a `write` call. -/
def Evt.isWrite : Evt → Bool
  | .writeCall _ => true
  | _ => false

/-- The trailing-byte count of an opcode-2 dispatch equals the glyph's
`rowBytes() * fHeight`. -/
theorem serverHandle_image_len (szOp : Nat) (rc : Renderer) (typefaceId : Nat)
    (rec : SkScalerContextRec) (g : SkGlyph) :
    (serverHandle szOp rc (imageRequest typefaceId rec g)).2.length
      = g.fRowBytes * g.fHeight := by
  simp [serverHandle, imageRequest, createOp, OpPayload.asGlyph, SkGlyph.rowBytes]

/-- The dispatch loop on a stream of frames followed by end-of-stream:
each frame contributes a read and a response write, the end-of-stream read
ends the loop. -/
theorem opLoop_frames_eof (szOp : Nat) (rc : Renderer) (frames : List Op)
    (rest : List ReadOutcome) :
    opLoop szOp rc (frames.map ReadOutcome.frame ++ ReadOutcome.eof :: rest)
      = (frames.map (dispatchEvts szOp rc)).flatten ++ [Evt.readCall szOp] := by
  induction frames with
  | nil => simp [opLoop]
  | cons q qs ih => simp [opLoop, dispatchEvts, ih]

/-- C1: For a font-metrics request (opcode 0), the metrics the client hands
back to its caller are bit-identical to what the provider produces for the
same `(fontId, descriptor)`: `generateFontMetrics` composed with the
renderer's dispatch of opcode 0 returns exactly
`generateScalerContext(descriptor, fontId).getFontMetrics` — in particular a
provider answering ascent=10, descent=-2, leading=1 makes the caller receive
exactly those values. -/
theorem fontMetrics_roundtrip_exact (szOp : Nat) (rc : Renderer)
    (typefaceId : Nat) (rec : SkScalerContextRec) :
    rpcFontMetrics szOp rc typefaceId rec
      = (rc.generateScalerContext rec typefaceId).getFontMetrics := rfl

/-- C2: In every opcode-2 exchange, the trailing bytes the server appends
and the bytes the client copies into the caller's image buffer both number
`rowBytes * height` as carried by the glyph metrics of this very exchange's
response frame (for rowBytes=8, height=12 that is 96); the counts are
functions of the exchange's own frame, so no stale prior value is involved. -/
theorem imageExchange_trailing_matches_metrics (szOp : Nat) (rc : Renderer)
    (typefaceId : Nat) (rec : SkScalerContextRec) (g : SkGlyph) :
    (imageExchange szOp rc typefaceId rec g).2.length
        = (imageExchange szOp rc typefaceId rec g).1.payload.asGlyph.rowBytes
          * (imageExchange szOp rc typefaceId rec g).1.payload.asGlyph.fHeight
      ∧ imageCopyCount g = (imageExchange szOp rc typefaceId rec g).2.length := by
  constructor <;>
    simp [imageExchange, serverHandle, imageRequest, createOp,
      OpPayload.asGlyph, imageCopyCount, SkGlyph.rowBytes]

/-- C3 (code bug): an unknown opcode does not abort the server.  The
`default` branch executes `SkASSERT("Bad op")`, whose condition — a non-null
string literal — is always true (and the macro is empty in release builds),
so the loop dispatches the frame as a no-op, writes a `sizeof(Op)`-byte
response of the unmodified request frame back, and keeps serving further
requests, contrary to the intended fatal assertion. -/
theorem unknownOpcode_writes_response :
    serverHandle szOpEx rcEx reqBadOp = (reqBadOp, [])
      ∧ opLoop szOpEx rcEx
          [ReadOutcome.frame reqBadOp, ReadOutcome.frame reqBadOp, ReadOutcome.eof]
        = [Evt.readCall szOpEx, Evt.writeCall szOpEx,
           Evt.readCall szOpEx, Evt.writeCall szOpEx, Evt.readCall szOpEx] :=
  ⟨rfl, rfl⟩

/-- C4 (counterexample): the client does not read the fixed frame size and
then a second, trailing-sized read.  `generateImage` performs exactly one
read call, and its requested size is the whole internal buffer
(`sizeof(fBuffer)` = 4194304 bytes), not the fixed frame size. -/
theorem client_no_two_phase_read_cex :
    (generateImageSyscalls szOpEx pbShort).filter Evt.isRead
        = [Evt.readCall fBufferSize]
      ∧ fBufferSize ≠ szOpEx
      ∧ (generatePathSyscalls szOpEx pbShort).filter Evt.isRead
        = [Evt.readCall fBufferSize] := by
  refine ⟨rfl, by decide, rfl⟩

/-- C4 (amended): each opcode-2/3 client operation performs a single read
sized to the whole internal buffer, independent of what the pipe delivers;
the trailing-byte count it consumes is determined by fixed frame fields —
`rowBytes() * fHeight` of the caller's glyph for opcode 2, and the response
frame's `pathSize` field (which equals the served trailing length) for
opcode 3 — never by the raw read's return value, which is discarded. -/
theorem client_single_read_fixed_fields (szOp : Nat) (pb : PipeBehavior)
    (rc : Renderer) (typefaceId : Nat) (rec : SkScalerContextRec)
    (g : SkGlyph) (glyphId : Nat) :
    generateImageSyscalls szOp pb = [Evt.writeCall szOp, Evt.readCall fBufferSize]
      ∧ generatePathSyscalls szOp pb = [Evt.writeCall szOp, Evt.readCall fBufferSize]
      ∧ imageCopyCount g = g.rowBytes * g.fHeight
      ∧ pathConsumedCount (pathExchange szOp rc typefaceId rec glyphId).1
          = (pathExchange szOp rc typefaceId rec glyphId).2.length := by
  refine ⟨rfl, rfl, rfl, ?_⟩
  simp [pathExchange, serverHandle, pathRequest, createOp,
    OpPayload.glyphIdField, pathConsumedCount, OpPayload.pathSizeField]

/-- C5 (code bug): the receiving role does not abort when the trailing
length implied by the fixed fields exceeds the buffer capacity — the source
marks the check "TODO".  An opcode-2 exchange whose glyph reports
`rowBytes * height = kBufferSize` completes normally: the loop keeps
running and writes `sizeof(Op) + kBufferSize` response bytes even though
frame plus trailing exceeds the `kBufferSize`-byte buffer. -/
theorem overflow_unchecked_exchange_completes :
    kBufferSize < szOpEx + (serverHandle szOpEx rcEx reqHuge).2.length
      ∧ opLoop szOpEx rcEx [ReadOutcome.frame reqHuge, ReadOutcome.eof]
        = [Evt.readCall szOpEx,
           Evt.writeCall (szOpEx + (serverHandle szOpEx rcEx reqHuge).2.length),
           Evt.readCall szOpEx] := by
  constructor
  · rw [reqHuge, serverHandle_image_len]
    norm_num [kBufferSize, kPageSize, szOpEx]
  · rfl

/-- C6 (counterexample): the client does not retry partial writes.  Against
a pipe behavior that accepts only 1 of the `sizeof(Op)` requested bytes with
no error, `generateFontMetrics` still performs exactly one write call (and
one read call) and returns — no further call transfers the remainder. -/
theorem client_no_partial_retry_cex :
    generateFontMetricsSyscalls szOpEx pbShort
        = [Evt.writeCall szOpEx, Evt.readCall fBufferSize]
      ∧ pbShort.writeBytes 0 = 1
      ∧ 1 < szOpEx
      ∧ (generateFontMetricsSyscalls szOpEx pbShort).filter Evt.isWrite
        = [Evt.writeCall szOpEx] := by
  refine ⟨rfl, rfl, by decide, rfl⟩

/-- C6 (amended): no RPC client operation retries partial I/O; each of the
four operations performs exactly one write call of `sizeof(Op)` bytes and
one read call of the full buffer size, with both return values discarded, so
the trace is identical for every pipe behavior. -/
theorem client_ops_fixed_syscall_trace (szOp : Nat) (pb pb2 : PipeBehavior) :
    generateFontMetricsSyscalls szOp pb
        = [Evt.writeCall szOp, Evt.readCall fBufferSize]
      ∧ generateMetricsSyscalls szOp pb
        = [Evt.writeCall szOp, Evt.readCall fBufferSize]
      ∧ generateImageSyscalls szOp pb
        = [Evt.writeCall szOp, Evt.readCall fBufferSize]
      ∧ generatePathSyscalls szOp pb
        = [Evt.writeCall szOp, Evt.readCall fBufferSize]
      ∧ generateFontMetricsSyscalls szOp pb = generateFontMetricsSyscalls szOp pb2 :=
  ⟨rfl, rfl, rfl, rfl, rfl⟩

/-- C7: when a read of the dispatch loop returns zero bytes (peer closed),
the loop terminates gracefully: every earlier frame was dispatched with its
response write, the end-of-stream read dispatches nothing further (whatever
would follow on the stream is never looked at), the role closes its read end
and its write end before returning, and the return value is 0, not an
error. -/
theorem dispatchLoop_eof_graceful_shutdown (szOp : Nat) (rc : Renderer)
    (frames : List Op) (rest : List ReadOutcome) :
    rendererOpPhase szOp rc (frames.map ReadOutcome.frame ++ ReadOutcome.eof :: rest)
      = ((frames.map (dispatchEvts szOp rc)).flatten
          ++ [Evt.readCall szOp, Evt.closeRead, Evt.closeWrite], 0) := by
  simp [rendererOpPhase, opLoop_frames_eof]

/-- C8: for opcodes 0 and 1 the server rewrites only the payload union in
place; the response frame's opcode, typeface id and descriptor bytes are
bit-identical to the request's. -/
theorem response_preserves_header_fields (szOp : Nat) (rc : Renderer)
    (req : Op) (h : req.op = 0 ∨ req.op = 1) :
    (serverHandle szOp rc req).1.op = req.op
      ∧ (serverHandle szOp rc req).1.typeface_id = req.typeface_id
      ∧ (serverHandle szOp rc req).1.descriptor = req.descriptor := by
  rcases h with h | h <;> simp [serverHandle, h]

/-- C8 witness: the header-preservation theorem applied to a concrete
opcode-0 request. -/
theorem response_preserves_header_fields_witness :
    ((createOp 0 5 recEx).op = 0 ∨ (createOp 0 5 recEx).op = 1)
      ∧ ((serverHandle szOpEx rcEx (createOp 0 5 recEx)).1.op
            = (createOp 0 5 recEx).op
        ∧ (serverHandle szOpEx rcEx (createOp 0 5 recEx)).1.typeface_id
            = (createOp 0 5 recEx).typeface_id
        ∧ (serverHandle szOpEx rcEx (createOp 0 5 recEx)).1.descriptor
            = (createOp 0 5 recEx).descriptor) :=
  ⟨Or.inl rfl,
    response_preserves_header_fields szOpEx rcEx (createOp 0 5 recEx) (Or.inl rfl)⟩

/-- C9 (code bug): a transport failure does not surface as a non-zero exit
status.  A `write` error during the picture transfer makes `renderer` return
1, but `start_render` discards that value and `main` returns 0; a read error
in the dispatch loop takes the same break as end-of-stream and `renderer`
itself returns 0.  Either way the driving process exits successfully. -/
theorem transport_failure_exit_status_zero :
    rendererRc szOpEx rcEx 10 [Option.none] [] = some 1
      ∧ mainExitCode szOpEx rcEx 10 [Option.none] [] = some 0
      ∧ rendererRc szOpEx rcEx 0 [] [ReadOutcome.err] = some 0
      ∧ mainExitCode szOpEx rcEx 0 [] [ReadOutcome.err] = some 0 := by
  refine ⟨?_, ?_, ?_, ?_⟩ <;> rfl

/-- C10: for opcodes 0 and 1 the server's response write is exactly the
fixed frame size — the dispatch produces no trailing bytes and the loop's
write call requests `sizeof(Op)` bytes. -/
theorem metrics_ops_fixed_size_response (szOp : Nat) (rc : Renderer)
    (req : Op) (h : req.op = 0 ∨ req.op = 1) :
    (serverHandle szOp rc req).2 = []
      ∧ opLoop szOp rc [ReadOutcome.frame req]
        = [Evt.readCall szOp, Evt.writeCall szOp] := by
  rcases h with h | h <;> simp [serverHandle, opLoop, h]

/-- C10 witness: the fixed-size-response theorem applied to a concrete
opcode-1 request. -/
theorem metrics_ops_fixed_size_response_witness :
    ((metricsRequest 5 recEx glyphZero).op = 0
        ∨ (metricsRequest 5 recEx glyphZero).op = 1)
      ∧ ((serverHandle szOpEx rcEx (metricsRequest 5 recEx glyphZero)).2 = []
        ∧ opLoop szOpEx rcEx [ReadOutcome.frame (metricsRequest 5 recEx glyphZero)]
          = [Evt.readCall szOpEx, Evt.writeCall szOpEx]) :=
  ⟨Or.inr rfl,
    metrics_ops_fixed_size_response szOpEx rcEx (metricsRequest 5 recEx glyphZero)
      (Or.inr rfl)⟩
